import Mathlib

/-!
Verification development for the BigQuery connector source file src/gcp.rs.

The file shallowly embeds the two core subsystems of gcp.rs:

* the token acquisition path `gcp_access_token_request` (lines 42-136),
  modelled as a pure function over an explicit environment that records the
  outcomes of the local KV open/lookup/insert, the JWT signing step, and the
  identity-provider exchange, and which returns both the result and the list
  of externally visible effects it performed;

* the SELECT path `handle_get_req` (lines 172-277): the date-bound condition
  builder (lines 183-210) and the schema/rows response decoder
  (lines 223-276).

Rust integers become Int with the explicit i64 range check where the source
parses integers; fallible steps become Except values; `panic_with_status`
and propagated `?` errors both become error values (their distinction is not
needed by any statement below). serde_json indexing such as
`row["f"][i]["v"]` returns Null when the index is out of range, and
`.as_str()` on a non-string is None: a cell is therefore modelled as
`Option String`, where `none` covers an absent cell and a non-string cell
alike, the two being indistinguishable to every operation the source applies.
-/

namespace Gcp

/-! ### Response decoder data model (gcp.rs lines 223-276) -/

/-- A schema field, one element of `bqresp_json["schema"]["fields"]`
(gcp.rs line 223). The source reads `field["name"]` with `as_str().unwrap()`
and compares `field["type"]` against the string INTEGER, so a well-formed
field carries both as strings. -/
structure Field where
  name : String
  type : String
deriving DecidableEq, Repr

/-- One row of the response: the `row["f"]` array, each entry holding the
string of its `["v"]` member, or `none` when the entry is absent or its `v`
is not a JSON string (both give `as_str() = None` in the source). -/
abbrev Row := List (Option String)

/-- Decode errors of the SELECT path. `intParsePanic` is the
`.parse::<i64>().unwrap()` panic of line 253-254; `urlDecodeErr` is the
error propagated by the `?` on `urlencoding::decode` at line 258;
`noSchemaFields` is the `panic_with_status!` of lines 224-228. -/
inductive DecErr where
  | intParsePanic
  | urlDecodeErr
  | noSchemaFields
deriving DecidableEq, Repr

/-- Model of Rust `str::parse::<i64>`: an optional single sign, then one or
more ASCII digits, nothing else, and the value must fit in the i64 range. -/
def parseI64 (s : String) : Option Int :=
  match s.data with
  | [] => none
  | c :: rest =>
    let signDigits : Int × List Char :=
      if c = '-' then (-1, rest)
      else if c = '+' then (1, rest)
      else (1, c :: rest)
    match signDigits with
    | (sign, digits) =>
      if digits = [] then none
      else if digits.all (fun d => d.isDigit) then
        let n : Int := sign * ((digits.foldl (fun a d => a * 10 + (d.toNat - 48)) 0 : Nat) : Int)
        if -(2 ^ 63) ≤ n ∧ n < 2 ^ 63 then some n else none
      else none

/-- UTF-8 encoding of one character (standard 1-4 byte encoding). -/
def charUtf8 (c : Char) : List Nat :=
  let n := c.toNat
  if n < 128 then [n]
  else if n < 2048 then [192 + n / 64, 128 + n % 64]
  else if n < 65536 then [224 + n / 4096, 128 + (n / 64) % 64, 128 + n % 64]
  else [240 + n / 262144, 128 + (n / 4096) % 64, 128 + (n / 64) % 64, 128 + n % 64]

/-- The UTF-8 bytes of a string (a Rust `&str` is exactly this byte list). -/
def strBytes (s : String) : List Nat :=
  s.data.foldr (fun c acc => charUtf8 c ++ acc) []

/-- Value of an ASCII hex digit byte, if it is one. -/
def hexVal (b : Nat) : Option Nat :=
  if 48 ≤ b ∧ b ≤ 57 then some (b - 48)
  else if 65 ≤ b ∧ b ≤ 70 then some (b - 55)
  else if 97 ≤ b ∧ b ≤ 102 then some (b - 87)
  else none

/-- Percent-decoding on bytes, as the urlencoding crate does it: byte 37 is
a percent sign; when followed by two hex digits the three bytes become one
decoded byte, otherwise the percent sign is kept literally. A plus sign is
not treated specially. -/
def pctDecodeBytes : List Nat → List Nat
  | [] => []
  | 37 :: h1 :: h2 :: rest =>
    match hexVal h1, hexVal h2 with
    | some a, some b => (a * 16 + b) :: pctDecodeBytes rest
    | _, _ => 37 :: pctDecodeBytes (h1 :: h2 :: rest)
  | b :: rest => b :: pctDecodeBytes rest

/-- Strict UTF-8 validation and decoding of a byte list: rejects overlong
encodings, surrogate code points and values above 0x10FFFF, exactly as the
String::from_utf8 check inside `urlencoding::decode` does. -/
def utf8Decode : List Nat → Option (List Char)
  | [] => some []
  | b :: rest =>
    if b < 128 then
      match utf8Decode rest with
      | some cs => some (Char.ofNat b :: cs)
      | none => none
    else if 194 ≤ b ∧ b ≤ 223 then
      match rest with
      | b2 :: rest2 =>
        if 128 ≤ b2 ∧ b2 ≤ 191 then
          match utf8Decode rest2 with
          | some cs => some (Char.ofNat ((b - 192) * 64 + (b2 - 128)) :: cs)
          | none => none
        else none
      | [] => none
    else if 224 ≤ b ∧ b ≤ 239 then
      match rest with
      | b2 :: b3 :: rest3 =>
        let lo2 := if b = 224 then 160 else 128
        let hi2 := if b = 237 then 159 else 191
        if (lo2 ≤ b2 ∧ b2 ≤ hi2) ∧ (128 ≤ b3 ∧ b3 ≤ 191) then
          match utf8Decode rest3 with
          | some cs => some (Char.ofNat ((b - 224) * 4096 + (b2 - 128) * 64 + (b3 - 128)) :: cs)
          | none => none
        else none
      | _ => none
    else if 240 ≤ b ∧ b ≤ 244 then
      match rest with
      | b2 :: b3 :: b4 :: rest4 =>
        let lo2 := if b = 240 then 144 else 128
        let hi2 := if b = 244 then 143 else 191
        if (lo2 ≤ b2 ∧ b2 ≤ hi2) ∧ (128 ≤ b3 ∧ b3 ≤ 191) ∧ (128 ≤ b4 ∧ b4 ≤ 191) then
          match utf8Decode rest4 with
          | some cs =>
            some (Char.ofNat ((b - 240) * 262144 + (b2 - 128) * 4096 + (b3 - 128) * 64 + (b4 - 128)) :: cs)
          | none => none
        else none
      | _ => none
    else none

/-- Model of `urlencoding::decode`: percent-decode the UTF-8 bytes of the
input and re-validate the result as UTF-8; `none` is the FromUtf8Error the
source propagates with `?` (line 258). -/
def percentDecode (s : String) : Option String :=
  match utf8Decode (pctDecodeBytes (strBytes s)) with
  | some cs => some (String.mk cs)
  | none => none

/-- Lowercase hex digit character, used by the JSON control-char escape. -/
def hexDigitChar (n : Nat) : Char :=
  if n < 10 then Char.ofNat (48 + n) else Char.ofNat (87 + n)

/-- Escape of one character inside a serde_json string literal: quote and
backslash get a backslash escape, control characters below 0x20 get their
short escape or a \u00XX escape, everything else is emitted verbatim. -/
def escapeJsonChar (c : Char) : List Char :=
  if c = '"' then ['\\', '"']
  else if c = '\\' then ['\\', '\\']
  else if 32 ≤ c.toNat then [c]
  else if c.toNat = 8 then ['\\', 'b']
  else if c.toNat = 9 then ['\\', 't']
  else if c.toNat = 10 then ['\\', 'n']
  else if c.toNat = 12 then ['\\', 'f']
  else if c.toNat = 13 then ['\\', 'r']
  else ['\\', 'u', '0', '0', hexDigitChar (c.toNat / 16), hexDigitChar (c.toNat % 16)]

/-- Model of `serde_json::to_string::<String>`: the JSON text of a string
value, i.e. the escaped characters wrapped in double quotes. This is what
lines 261-266 splice into the record text for every non-integer field. -/
def jsonEscapeString (s : String) : String :=
  String.mk ('"' :: s.data.foldr (fun c acc => escapeJsonChar c ++ acc) ['"'])

/-- The cell the loop reads at index i: `row["f"][i]["v"]` seen through
`as_str()`. serde_json gives Null for an out-of-range index, so an index
beyond the cell list is `none`. -/
def getCell (cells : Row) (i : Nat) : Option String :=
  (cells.get? i).getD none

/-- Decode of one cell against its schema field, returning the JSON text
spliced into the record (gcp.rs lines 245-267):

* INTEGER field: `row["f"][i]["v"].as_str().unwrap_or("0").parse::<i64>().unwrap()`
  formatted in decimal; an unparsable present string panics;
* field named update: `urlencoding::decode(... .unwrap_or(""))?`, then
  serialized with `serde_json::to_string`;
* any other field: the raw string, `unwrap_or("")`, serialized with
  `serde_json::to_string`. -/
def decodeCell (f : Field) (cell : Option String) : Except DecErr String :=
  if f.type = "INTEGER" then
    match parseI64 (cell.getD "0") with
    | some n => Except.ok (toString n)
    | none => Except.error DecErr.intParsePanic
  else if f.name = "update" then
    match percentDecode (cell.getD "") with
    | some d => Except.ok (jsonEscapeString d)
    | none => Except.error DecErr.urlDecodeErr
  else
    Except.ok (jsonEscapeString (cell.getD ""))

/-- The inner field loop of lines 243-269: walk the schema fields with the
running index i, pairing each field name with the JSON text of its decoded
value. The first failing cell aborts the whole request, as the panic and the
`?` do in the source. -/
def decodeFieldsFrom : List Field → Row → Nat → Except DecErr (List (String × String))
  | [], _, _ => Except.ok []
  | f :: fs, cells, i =>
    match decodeCell f (getCell cells i) with
    | Except.error e => Except.error e
    | Except.ok v =>
      match decodeFieldsFrom fs cells (i + 1) with
      | Except.error e => Except.error e
      | Except.ok rest => Except.ok ((f.name, v) :: rest)

/-- Decode of one row: the field loop started at index 0 (line 243). -/
def decodeRow (fields : List Field) (cells : Row) : Except DecErr (List (String × String)) :=
  decodeFieldsFrom fields cells 0

/-- The textual object the source assembles from the decoded pairs
(lines 242, 246-266, 270-271): open brace, then a space, the field name as a
JSON string, a colon, the value text and a comma per field; the final comma
is popped and the object is closed. The source then re-parses this text with
serde_json::from_str, which for a non-empty well-formed field list returns
exactly the record the pair list denotes. -/
def rowDataStr (pairs : List (String × String)) : String :=
  let core := pairs.foldl (fun acc p => acc ++ " " ++ jsonEscapeString p.1 ++ ":" ++ p.2 ++ ",") "\x7b"
  core.dropRight 1 ++ "\x7d"

/-- The response shaping of lines 223-276: absent `schema.fields` is the
hard failure of lines 224-228; present schema with an absent `rows` array
returns the empty sequence (lines 231-237, the early 200 with body []);
otherwise every row is decoded in order and any failure aborts the request. -/
def handleGetDecode (schemaFields : Option (List Field)) (rows : Option (List Row)) :
    Except DecErr (List (List (String × String))) :=
  match schemaFields with
  | none => Except.error DecErr.noSchemaFields
  | some fields =>
    match rows with
    | none => Except.ok []
    | some rs => rs.mapM (fun r => decodeRow fields r)

/-! ### Date bounds and the condition builder (gcp.rs lines 183-210) -/

/-- A calendar date as chrono NaiveDate presents it to this code. -/
structure Date where
  year : Int
  month : Nat
  day : Nat
deriving DecidableEq, Repr

/-- Gregorian leap year test. -/
def isLeapYear (y : Int) : Bool :=
  decide ((y % 4 = 0 ∧ y % 100 ≠ 0) ∨ y % 400 = 0)

/-- Number of days of a month. -/
def daysInMonth (y : Int) (m : Nat) : Nat :=
  if m = 2 then (if isLeapYear y then 29 else 28)
  else if m = 4 ∨ m = 6 ∨ m = 9 ∨ m = 11 then 30
  else 31

/-- Day number of a date counted from 1970-01-01, the standard civil
calendar algorithm. chrono signed_duration_since of two dates counts days on
the same calendar, so differences and comparisons agree with it. Divisions
are written with Int.tdiv (truncation), matching the reference algorithm. -/
def daysFromCivil (dt : Date) : Int :=
  let y : Int := if dt.month ≤ 2 then dt.year - 1 else dt.year
  let era : Int := Int.tdiv (if 0 ≤ y then y else y - 399) 400
  let yoe : Int := y - era * 400
  let mp : Int := if dt.month ≤ 2 then (dt.month : Int) + 9 else (dt.month : Int) - 3
  let doy : Int := Int.tdiv (153 * mp + 2) 5 + (dt.day : Int) - 1
  let doe : Int := yoe * 365 + Int.tdiv yoe 4 - Int.tdiv yoe 100 + doy
  era * 146097 + doe - 719468

/-- Greedy digit scanner: consume up to `fuel` leading digits, returning the
accumulated value, the number of digits consumed and the rest. -/
def digitsAux : Nat → Nat → Nat → List Char → Nat × Nat × List Char
  | 0, acc, k, cs => (acc, k, cs)
  | fuel + 1, acc, k, cs =>
    match cs with
    | [] => (acc, k, [])
    | c :: rest =>
      if c.isDigit then digitsAux fuel (acc * 10 + (c.toNat - 48)) (k + 1) rest
      else (acc, k, cs)

/-- Model of chrono NaiveDate::parse_from_str with the fixed format used at
lines 190, 201 and 202: an optionally signed year, a hyphen, a 1-2 digit
month, a hyphen, a 1-2 digit day, nothing trailing, and the triple must be a
valid calendar date. The chrono bound of roughly plus or minus 262143 on the
year is not modelled; no statement below depends on it. -/
def parseDate (s : String) : Option Date :=
  let cs := s.data
  let signSplit : Bool × List Char :=
    match cs with
    | '-' :: rest => (true, rest)
    | '+' :: rest => (false, rest)
    | _ => (false, cs)
  match signSplit with
  | (isNeg, cs1) =>
    match digitsAux cs1.length 0 0 cs1 with
    | (y, ky, cs2) =>
      if ky = 0 then none
      else
        match cs2 with
        | '-' :: cs3 =>
          match digitsAux 2 0 0 cs3 with
          | (m, km, cs4) =>
            if km = 0 then none
            else
              match cs4 with
              | '-' :: cs5 =>
                match digitsAux 2 0 0 cs5 with
                | (d, kd, cs6) =>
                  if kd = 0 then none
                  else if cs6 = [] then
                    let year : Int := if isNeg then -(y : Int) else (y : Int)
                    if 1 ≤ m ∧ m ≤ 12 ∧ 1 ≤ d ∧ d ≤ daysInMonth year m then
                      some ⟨year, m, d⟩
                    else none
                  else none
              | _ => none
        | _ => none

/-- Failures of the condition builder: a date that does not parse
(the `?` at lines 190, 201, 202) or an inverted/out-of-range bound
(the `panic_with_status!` at lines 196 and 206). -/
inductive CondErr where
  | parseErr
  | rangeErr
deriving DecidableEq, Repr

/-- The match over the optional query-string bounds, gcp.rs lines 185-210.
`today` stands for Utc::today().naive_utc(); its weekday counted from Sunday
is (daysFromCivil today + 4) mod 7 because 1970-01-01 was a Thursday, and
this_sunday of line 192 is today minus that count. Note the second arm: when
only the lower bound is supplied, the raw string is formatted into the
clause without any parse. -/
def buildCondition (today : Date) (fromStr toStr : Option String) : Except CondErr String :=
  match fromStr, toStr with
  | none, none => Except.ok "week >= DATE_TRUNC(CURRENT_DATE(), week)"
  | some x, none => Except.ok ("week >= \x27" ++ x ++ "\x27")
  | none, some y =>
    match parseDate y with
    | none => Except.error CondErr.parseErr
    | some toD =>
      let thisSunday : Int := daysFromCivil today - (daysFromCivil today + 4) % 7
      if daysFromCivil toD - thisSunday < 0 then Except.error CondErr.rangeErr
      else Except.ok ("week >= DATE_TRUNC(CURRENT_DATE(), week) and week <= \x27" ++ y ++ "\x27")
  | some x, some y =>
    match parseDate x with
    | none => Except.error CondErr.parseErr
    | some fromD =>
      match parseDate y with
      | none => Except.error CondErr.parseErr
      | some toD =>
        if daysFromCivil toD - daysFromCivil fromD < 0 then Except.error CondErr.rangeErr
        else Except.ok ("date >= \x27" ++ x ++ "\x27 and date <= \x27" ++ y ++ "\x27")

/-! ### Token acquisition (gcp.rs lines 42-136) -/

/-- Externally visible effects of one call to the token path, in order:
a local KV lookup, the JWT assertion construction and signature
(lines 73-80), the form POST to the identity provider (lines 92-102), and a
KV insert of a token under a key with a TTL (lines 123-132). -/
inductive Event where
  | lookup
  | sign
  | exchange
  | insert (key : String) (token : String) (ttlSeconds : Nat)
deriving DecidableEq, Repr

/-- Outcome data of the identity-provider POST once a response arrived:
its HTTP success flag (line 103), whether the body parsed as JSON
(line 109), and the access_token / expires_in members seen through
as_str() and as_u64() (lines 110, 118). -/
structure IdpResp where
  success : Bool
  bodyParseOk : Bool
  accessToken : Option String
  expiresIn : Option Nat
deriving Repr

/-- Environment of one call: outcome of LocalStore::open (line 44), of the
lookup (lines 55-68), of the PEM parse and RS256 signature (line 80), of the
send to the idp backend (lines 92-102), and of the cache insert
(lines 124-128). -/
structure TokenEnv where
  openOk : Bool
  lookupResult : Except String (Option String)
  signResult : Except String String
  idpResult : Except String IdpResp
  insertOk : Bool

/-- Terminal failures of the token path: the propagated signing error
(`?` at line 80) and the four panic_with_status aborts of lines 96-122,
plus the propagated body-JSON error of line 109. -/
inductive TokErr where
  | signFail (msg : String)
  | idpSendPanic
  | idpStatusPanic
  | bodyJsonErr
  | noAccessTokenPanic
  | noExpiresInPanic
deriving DecidableEq, Repr

/-- Result and effect trace of one call to the token path. -/
structure TokenOutcome where
  result : Except TokErr String
  events : List Event

/-- Model of gcp_access_token_request (gcp.rs lines 42-136). A failed KV
open is only logged (lines 45-47) and skips the lookup; a failed lookup is
logged and yields the empty string (lines 60-63), exactly like an absent
entry (line 65), so both fall into the miss branch guarded by
`access_token == ""` (line 72). The miss branch signs a fresh assertion,
performs the single exchange, and on success attempts the cache insert
(only when the open succeeded), whose failure is only logged (lines
128-131). The hash argument stands for Hash::hash over the scope bytes,
the cache key of lines 58 and 125. -/
def gcpAccessTokenRequest (hash : String → String) (env : TokenEnv) (scope : String) :
    TokenOutcome :=
  let lookupEvents : List Event := if env.openOk then [Event.lookup] else []
  let cached : String :=
    if env.openOk then
      match env.lookupResult with
      | Except.error _ => ""
      | Except.ok none => ""
      | Except.ok (some x) => x
    else ""
  if cached = "" then
    match env.signResult with
    | Except.error e => ⟨Except.error (TokErr.signFail e), lookupEvents ++ [Event.sign]⟩
    | Except.ok _jwt =>
      match env.idpResult with
      | Except.error _ =>
        ⟨Except.error TokErr.idpSendPanic, lookupEvents ++ [Event.sign, Event.exchange]⟩
      | Except.ok resp =>
        if resp.success = false then
          ⟨Except.error TokErr.idpStatusPanic, lookupEvents ++ [Event.sign, Event.exchange]⟩
        else if resp.bodyParseOk = false then
          ⟨Except.error TokErr.bodyJsonErr, lookupEvents ++ [Event.sign, Event.exchange]⟩
        else
          match resp.accessToken with
          | none =>
            ⟨Except.error TokErr.noAccessTokenPanic, lookupEvents ++ [Event.sign, Event.exchange]⟩
          | some tok =>
            match resp.expiresIn with
            | none =>
              ⟨Except.error TokErr.noExpiresInPanic, lookupEvents ++ [Event.sign, Event.exchange]⟩
            | some expire =>
              ⟨Except.ok tok,
                lookupEvents ++ [Event.sign, Event.exchange] ++
                  (if env.openOk then [Event.insert (hash scope) tok expire] else [])⟩
  else
    ⟨Except.ok cached, lookupEvents⟩

/-- Marker for identity-provider exchange events. -/
def isExchange : Event → Bool
  | Event.exchange => true
  | _ => false

/-- Number of identity-provider exchanges a call performed. -/
def exchangeCount (o : TokenOutcome) : Nat :=
  o.events.countP isExchange

end Gcp

namespace Gcp

/-! ### Helper lemmas about the decoder -/

theorem getCell_past_end (cells : Row) (i : Nat) (h : cells.length ≤ i) :
    getCell cells i = none := by
  unfold getCell
  rw [List.get?_eq_none.mpr h]
  rfl

theorem decodeCell_none (f : Field) :
    decodeCell f none = Except.ok (if f.type = "INTEGER" then "0" else "\"\"") := by
  unfold decodeCell
  by_cases h : f.type = "INTEGER"
  · rw [if_pos h, if_pos h]
    rfl
  · rw [if_neg h, if_neg h]
    by_cases hn : f.name = "update"
    · rw [if_pos hn]
      rfl
    · rw [if_neg hn]
      rfl

theorem decodeFieldsFrom_past_end :
    ∀ (fields : List Field) (cells : Row) (i : Nat), cells.length ≤ i →
      decodeFieldsFrom fields cells i =
        Except.ok (fields.map (fun f => (f.name, if f.type = "INTEGER" then "0" else "\"\"")))
  | [], _, _, _ => rfl
  | f :: fs, cells, i, h => by
    have ih := decodeFieldsFrom_past_end fs cells (i + 1) (Nat.le_succ_of_le h)
    unfold decodeFieldsFrom
    rw [getCell_past_end cells i h, decodeCell_none, ih]
    rfl

/-! ### Claim theorems -/

/-- Claim C1, counterexample: a row whose cell array is shorter than the
schema field array does not produce a decode error; with two schema fields
and zero cells the decoder succeeds and substitutes the defaults 0 and the
empty JSON string. -/
theorem decodeRow_missing_cells_succeeds :
    decodeRow [⟨"score", "INTEGER"⟩, ⟨"term", "STRING"⟩] [] =
      Except.ok [("score", "0"), ("term", "\"\"")] := rfl

/-- Claim C1 (amended): when the cell array has fewer cells than the schema
has fields, every index past the end of the cell array reads as an absent
cell and decodes to the default value (0 for an INTEGER field, the empty
JSON string for a text field); the decode does not fail and the record keeps
one entry per schema field. -/
theorem decodeRow_missing_cells_default (fields : List Field) (cells : Row) (i : Nat)
    (h : cells.length ≤ i) :
    decodeFieldsFrom fields cells i =
      Except.ok (fields.map (fun f => (f.name, if f.type = "INTEGER" then "0" else "\"\""))) ∧
    decodeRow fields [] =
      Except.ok (fields.map (fun f => (f.name, if f.type = "INTEGER" then "0" else "\"\""))) :=
  ⟨decodeFieldsFrom_past_end fields cells i h,
   decodeFieldsFrom_past_end fields [] 0 (Nat.le_refl 0)⟩

/-- Claim C1, witness for the amended theorem at a concrete input: one
INTEGER field read at index 1 of a one-cell row defaults to 0 without
error. -/
theorem decodeRow_missing_cells_default_witness :
    decodeFieldsFrom [⟨"score", "INTEGER"⟩] [some "7"] 1 = Except.ok [("score", "0")] ∧
    decodeRow [⟨"score", "INTEGER"⟩] [] = Except.ok [("score", "0")] :=
  decodeRow_missing_cells_default [⟨"score", "INTEGER"⟩] [some "7"] 1 (by decide)

/-- Claim C2, counterexample: a present cell whose string does not parse as
an integer does not decode to zero; it is a decode failure (the unwrap panic
of line 254). -/
theorem decodeCell_unparsable_integer_panics :
    decodeCell ⟨"score", "INTEGER"⟩ (some "abc") = Except.error DecErr.intParsePanic := rfl

/-- Claim C2 (amended): for an INTEGER field an absent cell (or a cell whose
value is not a JSON string) defaults to the string 0 and decodes to zero
without error, but a present string cell that does not parse as an i64 is a
decode failure, not a zero. -/
theorem integer_cell_default_and_panic (name s : String) (hs : parseI64 s = none) :
    decodeCell ⟨name, "INTEGER"⟩ none = Except.ok "0" ∧
    decodeCell ⟨name, "INTEGER"⟩ (some s) = Except.error DecErr.intParsePanic := by
  refine ⟨rfl, ?_⟩
  simp [decodeCell, hs]

/-- Claim C2, witness: the integer default and the unparsable-string panic
at concrete inputs. -/
theorem integer_cell_default_and_panic_witness :
    decodeCell ⟨"rank", "INTEGER"⟩ none = Except.ok "0" ∧
    decodeCell ⟨"rank", "INTEGER"⟩ (some "12a") = Except.error DecErr.intParsePanic :=
  integer_cell_default_and_panic "rank" "12a" (by decide)

/-- Claim C3, counterexample: with only the lower bound given, an unparsable
date does not fail the request; the raw string is embedded into the filter
clause and the query proceeds. -/
theorem from_only_unparsed_passthrough :
    parseDate "garbage" = none ∧
    buildCondition ⟨2024, 5, 6⟩ (some "garbage") none = Except.ok "week >= \x27garbage\x27" :=
  ⟨rfl, rfl⟩

/-- Claim C3 (amended): the to-only and both-bounds branches parse the
caller dates with the fixed calendar format and an unparsable date fails the
request before any query, but the from-only branch performs no parsing at
all and embeds the raw string into the clause. -/
theorem date_parse_branch_scope (today : Date) (x y : String) (hy : parseDate y = none) :
    buildCondition today (some x) none = Except.ok ("week >= \x27" ++ x ++ "\x27") ∧
    buildCondition today none (some y) = Except.error CondErr.parseErr ∧
    buildCondition today (some x) (some y) = Except.error CondErr.parseErr := by
  refine ⟨rfl, ?_, ?_⟩
  · simp [buildCondition, hy]
  · cases hx : parseDate x <;> simp [buildCondition, hy, hx]

/-- Claim C3, witness: the three branches at concrete inputs, with an
invalid calendar date for the upper bound. -/
theorem date_parse_branch_scope_witness :
    buildCondition ⟨2024, 5, 6⟩ (some "2024-01-01") none =
      Except.ok ("week >= \x27" ++ "2024-01-01" ++ "\x27") ∧
    buildCondition ⟨2024, 5, 6⟩ none (some "2024-13-40") = Except.error CondErr.parseErr ∧
    buildCondition ⟨2024, 5, 6⟩ (some "2024-01-01") (some "2024-13-40") =
      Except.error CondErr.parseErr := by
  have h := date_parse_branch_scope ⟨2024, 5, 6⟩ "2024-01-01" "2024-13-40" (by decide)
  exact ⟨h.1, h.2.1, h.2.2⟩

/-- Claim C4: when the cache holds a non-expired (hence non-empty) token for
the scope fingerprint, the call returns exactly that token and its effect
trace is the single cache lookup: no assertion is built, no signature and no
identity-provider exchange happen, and nothing is inserted. -/
theorem cache_hit_no_exchange (hash : String → String) (scope t : String)
    (sr : Except String String) (ir : Except String IdpResp) (b : Bool) (ht : t ≠ "") :
    (gcpAccessTokenRequest hash ⟨true, Except.ok (some t), sr, ir, b⟩ scope).result =
      Except.ok t ∧
    (gcpAccessTokenRequest hash ⟨true, Except.ok (some t), sr, ir, b⟩ scope).events =
      [Event.lookup] := by
  constructor <;> simp [gcpAccessTokenRequest, ht]

/-- Claim C4, witness: a concrete cache hit returns the cached token with
only the lookup in its trace. -/
theorem cache_hit_no_exchange_witness :
    (gcpAccessTokenRequest (fun s => s)
      ⟨true, Except.ok (some "tok123"), Except.ok "jwt", Except.error "down", true⟩
      "scopeA").result = Except.ok "tok123" ∧
    (gcpAccessTokenRequest (fun s => s)
      ⟨true, Except.ok (some "tok123"), Except.ok "jwt", Except.error "down", true⟩
      "scopeA").events = [Event.lookup] :=
  cache_hit_no_exchange (fun s => s) "scopeA" "tok123" (Except.ok "jwt")
    (Except.error "down") true (by decide)

/-- Claim C5: on a cache miss (the store opened and the lookup found
nothing) with a successfully signed assertion, exactly one exchange with the
identity provider is performed, whatever its outcome; and when the exchange
succeeds with an access token and an expires_in, that token is returned and
the trace records the cache insert of the token under the scope fingerprint
with TTL equal to expires_in. -/
theorem cache_miss_single_exchange (hash : String → String) (scope jwt : String)
    (ir : Except String IdpResp) (b : Bool) :
    exchangeCount
      (gcpAccessTokenRequest hash ⟨true, Except.ok none, Except.ok jwt, ir, b⟩ scope) = 1 ∧
    (∀ (tok : String) (expire : Nat),
      ir = Except.ok ⟨true, true, some tok, some expire⟩ →
      (gcpAccessTokenRequest hash ⟨true, Except.ok none, Except.ok jwt, ir, b⟩ scope).result =
        Except.ok tok ∧
      (gcpAccessTokenRequest hash ⟨true, Except.ok none, Except.ok jwt, ir, b⟩ scope).events =
        [Event.lookup, Event.sign, Event.exchange, Event.insert (hash scope) tok expire]) := by
  constructor
  · rcases ir with e | ⟨succ, bp, atk, ei⟩
    · simp [gcpAccessTokenRequest, exchangeCount, isExchange, List.countP_cons, List.countP_nil]
    · cases succ <;> cases bp <;> cases atk <;> cases ei <;>
        simp [gcpAccessTokenRequest, exchangeCount, isExchange, List.countP_cons,
          List.countP_nil]
  · rintro tok expire rfl
    constructor <;> simp [gcpAccessTokenRequest]

/-- Claim C5, witness: a concrete cold-cache call performs one exchange,
returns the fresh token and records the insert with the reported TTL. -/
theorem cache_miss_single_exchange_witness :
    exchangeCount (gcpAccessTokenRequest (fun s => s)
      ⟨true, Except.ok none, Except.ok "jwt", Except.ok ⟨true, true, some "newTok", some 3599⟩,
        true⟩ "scopeB") = 1 ∧
    (gcpAccessTokenRequest (fun s => s)
      ⟨true, Except.ok none, Except.ok "jwt", Except.ok ⟨true, true, some "newTok", some 3599⟩,
        true⟩ "scopeB").result = Except.ok "newTok" ∧
    (gcpAccessTokenRequest (fun s => s)
      ⟨true, Except.ok none, Except.ok "jwt", Except.ok ⟨true, true, some "newTok", some 3599⟩,
        true⟩ "scopeB").events =
      [Event.lookup, Event.sign, Event.exchange, Event.insert "scopeB" "newTok" 3599] := by
  have h := cache_miss_single_exchange (fun s => s) "scopeB" "jwt"
    (Except.ok ⟨true, true, some "newTok", some 3599⟩) true
  have h2 := h.2 "newTok" 3599 rfl
  exact ⟨h.1, h2.1, h2.2⟩

/-- Claim C6: cache trouble never fails the caller. A failed store open and
a failed lookup are both treated as a miss, forcing the exchange which (when
it succeeds) still returns the fresh token; and a failed insert after a
successful exchange is a no-op that leaves the returned token intact. -/
theorem cache_failure_nonfatal (hash : String → String) (scope jwt tok ce : String)
    (expire : Nat) (lr : Except String (Option String)) (b : Bool) :
    (gcpAccessTokenRequest hash
      ⟨false, lr, Except.ok jwt, Except.ok ⟨true, true, some tok, some expire⟩, b⟩
      scope).result = Except.ok tok ∧
    Event.exchange ∈ (gcpAccessTokenRequest hash
      ⟨false, lr, Except.ok jwt, Except.ok ⟨true, true, some tok, some expire⟩, b⟩
      scope).events ∧
    (gcpAccessTokenRequest hash
      ⟨true, Except.error ce, Except.ok jwt, Except.ok ⟨true, true, some tok, some expire⟩, b⟩
      scope).result = Except.ok tok ∧
    Event.exchange ∈ (gcpAccessTokenRequest hash
      ⟨true, Except.error ce, Except.ok jwt, Except.ok ⟨true, true, some tok, some expire⟩, b⟩
      scope).events ∧
    (gcpAccessTokenRequest hash
      ⟨true, Except.ok none, Except.ok jwt, Except.ok ⟨true, true, some tok, some expire⟩,
        false⟩ scope).result = Except.ok tok := by
  refine ⟨rfl, ?_, rfl, ?_, rfl⟩ <;> simp [gcpAccessTokenRequest]

/-- Claim C7: for every non-integer field, percent-decoding is applied
exactly when the field is named update; any other text field value, percent
sequences included, is passed through literally and serialized as an escaped
JSON string. -/
theorem percent_decode_only_update (name ftype v : String) (hft : ftype ≠ "INTEGER") :
    (name ≠ "update" → decodeCell ⟨name, ftype⟩ (some v) = Except.ok (jsonEscapeString v)) ∧
    decodeCell ⟨"update", ftype⟩ (some v) =
      (match percentDecode v with
       | some d => Except.ok (jsonEscapeString d)
       | none => Except.error DecErr.urlDecodeErr) := by
  constructor
  · intro hn
    simp [decodeCell, hft, hn]
  · simp [decodeCell, hft]

/-- Claim C7, witness: a value containing a percent sequence passes through
literally under a non-reserved name and is percent-decoded under the
reserved name update. -/
theorem percent_decode_only_update_witness :
    decodeCell ⟨"term", "STRING"⟩ (some "a%20b") = Except.ok (jsonEscapeString "a%20b") ∧
    decodeCell ⟨"update", "STRING"⟩ (some "a%20b") = Except.ok "\"a b\"" := by
  have h := percent_decode_only_update "term" "STRING" "a%20b" (by decide)
  refine ⟨h.1 (by decide), ?_⟩
  rw [h.2]
  rfl

/-- Claim C8: a payload lacking schema.fields is a hard decode error
whatever the rows are, while a payload with schema.fields but no rows array
yields the successful empty sequence. -/
theorem schema_rows_presence (fields : List Field) (rowsOpt : Option (List Row)) :
    handleGetDecode none rowsOpt = Except.error DecErr.noSchemaFields ∧
    handleGetDecode (some fields) none = Except.ok [] :=
  ⟨rfl, rfl⟩

/-- Claim C9: with both bounds supplied and parsing to calendar dates, the
request is rejected with the range error exactly when the upper date
precedes the lower one; otherwise the produced clause is the two-sided date
filter over the given strings. -/
theorem both_dates_range_check (today : Date) (x y : String) (df dt : Date)
    (hx : parseDate x = some df) (hy : parseDate y = some dt) :
    (buildCondition today (some x) (some y) = Except.error CondErr.rangeErr ↔
      daysFromCivil dt < daysFromCivil df) ∧
    (daysFromCivil df ≤ daysFromCivil dt →
      buildCondition today (some x) (some y) =
        Except.ok ("date >= \x27" ++ x ++ "\x27 and date <= \x27" ++ y ++ "\x27")) := by
  by_cases hlt : daysFromCivil dt - daysFromCivil df < 0 <;>
    simp [buildCondition, hx, hy, hlt] <;> omega

/-- Claim C9, witness: the inverted pair from equals 2024-01-01 and to
equals 2023-12-31 is rejected with the range error. -/
theorem both_dates_range_check_witness :
    buildCondition ⟨2024, 5, 6⟩ (some "2024-01-01") (some "2023-12-31") =
      Except.error CondErr.rangeErr :=
  (both_dates_range_check ⟨2024, 5, 6⟩ "2024-01-01" "2023-12-31" ⟨2024, 1, 1⟩
    ⟨2023, 12, 31⟩ (by decide) (by decide)).1.mpr (by decide)

/-- Claim C10: a non-integer field whose cell is absent or not a JSON
string decodes to the empty JSON string without error, for the reserved
update column included, since percent-decoding the empty string yields the
empty string. -/
theorem absent_text_cell_empty (name ftype : String) (hft : ftype ≠ "INTEGER") :
    decodeCell ⟨name, ftype⟩ none = Except.ok (jsonEscapeString "") ∧
    percentDecode "" = some "" := by
  refine ⟨?_, rfl⟩
  have hp : percentDecode "" = some "" := rfl
  by_cases hn : name = "update"
  · simp [decodeCell, hft, hn, hp]
  · simp [decodeCell, hft, hn]

/-- Claim C10, witness: the reserved update column with an absent cell
decodes to the empty JSON string. -/
theorem absent_text_cell_empty_witness :
    decodeCell ⟨"update", "STRING"⟩ none = Except.ok (jsonEscapeString "") ∧
    percentDecode "" = some "" :=
  absent_text_cell_empty "update" "STRING" (by decide)

end Gcp
